import Mathlib

/-
Verification of the flash scheduling, debouncing and color utilities of the
obsidian-cursor-cues plugin, as a shallow embedding in Lean 4.

Embedding conventions:
- JS strings are Lean String values; trigger names are compared with == as in
  the source.
- JS timestamps (Date.now()) are modelled as Int; pixel quantities that can be
  fractional are modelled as Rat.
- A live setTimeout handle is modelled as an Option carrying the armed delay;
  none means no timer is armed.
- JS truthiness of a (string | null) field is modelled explicitly: null and
  the empty string are falsy.
-/

/- ===== src/utils.ts: shouldAllowFlash ===== -/

/-- State object for flash scheduling, from the FlashScheduler service
(FlashState interface). Timestamps are Int (ms since epoch). -/
structure FlashState where
  isFenceActive : Bool
  isFlashActive : Bool
  hasPendingFlash : Bool
  lastViewChange : Int
  now : Int

/-- Embedding of shouldAllowFlash from src/utils.ts: view/layout triggers
bypass the click fence; an active or pending flash blocks admission. -/
def shouldAllowFlash (trigger : String) (isFenceActive : Bool)
    (isFlashActive : Bool) (hasPendingFlash : Bool) : Bool :=
  let isViewTrigger := trigger == "view-change" || trigger == "layout-change"
  if !isViewTrigger && isFenceActive then
    false
  else if isFlashActive || hasPendingFlash then
    false
  else
    true

/-- Embedding of FlashScheduler.canScheduleFlash: shouldAllowFlash plus the
100 ms minimum-interval rule for non-view triggers. -/
def canScheduleFlash (trigger : String) (state : FlashState) : Bool :=
  let flashAllowed := shouldAllowFlash trigger state.isFenceActive
    state.isFlashActive state.hasPendingFlash
  if !flashAllowed then
    false
  else
    let isViewTrigger := trigger == "view-change" || trigger == "layout-change"
    if !isViewTrigger && decide (state.now - state.lastViewChange < 100) then
      false
    else
      true

/-- Embedding of calculateScrollDebounceTime from src/utils.ts; the scroll
delta is a JS number, modelled as Rat. -/
def calculateScrollDebounceTime (scrollDelta : Rat) : Rat :=
  if scrollDelta < 5 then 250 else 150

/-- Embedding of FlashScheduler.getScrollDebounceTime, which delegates to
calculateScrollDebounceTime. -/
def getScrollDebounceTime (scrollDelta : Rat) : Rat :=
  calculateScrollDebounceTime scrollDelta

/-- C1: if a flash is active or pending, shouldAllowFlash and
canScheduleFlash both return false, for every trigger, fence flag and pair of
timestamps. -/
theorem active_or_pending_blocks_admission (trigger : String)
    (state : FlashState)
    (h : state.isFlashActive = true ∨ state.hasPendingFlash = true) :
    shouldAllowFlash trigger state.isFenceActive state.isFlashActive
      state.hasPendingFlash = false ∧
    canScheduleFlash trigger state = false := by
  obtain ⟨fence, active, pending, last, n⟩ := state
  have hsa : shouldAllowFlash trigger fence active pending = false := by
    rcases h with h | h <;> simp_all [shouldAllowFlash]
  refine ⟨hsa, ?_⟩
  simp [canScheduleFlash, hsa]

/-- C1 witness: concrete active flash blocks a scroll trigger. -/
theorem active_or_pending_blocks_admission_witness :
    shouldAllowFlash ("scroll") false true false = false ∧
    canScheduleFlash ("scroll") ⟨false, true, false, 0, 0⟩ = false :=
  active_or_pending_blocks_admission ("scroll") ⟨false, true, false, 0, 0⟩
    (Or.inl rfl)

/-- C2: with the fence active and no active or pending flash, a scroll
trigger is rejected while view-change and layout-change triggers are
admitted, regardless of the timestamps. -/
theorem fence_bypass_for_view_triggers (state : FlashState)
    (hf : state.isFenceActive = true) (ha : state.isFlashActive = false)
    (hp : state.hasPendingFlash = false) :
    canScheduleFlash ("scroll") state = false ∧
    canScheduleFlash ("view-change") state = true ∧
    canScheduleFlash ("layout-change") state = true := by
  obtain ⟨fence, active, pending, last, n⟩ := state
  simp only at hf ha hp
  subst hf; subst ha; subst hp
  exact ⟨rfl, rfl, rfl⟩

/-- C2 witness: concrete fence-active state. -/
theorem fence_bypass_for_view_triggers_witness :
    canScheduleFlash ("scroll") ⟨true, false, false, 0, 0⟩ = false ∧
    canScheduleFlash ("view-change") ⟨true, false, false, 0, 0⟩ = true ∧
    canScheduleFlash ("layout-change") ⟨true, false, false, 0, 0⟩ = true :=
  fence_bypass_for_view_triggers ⟨true, false, false, 0, 0⟩ rfl rfl rfl

/-- C3: with fence, active and pending all clear, the 100 ms
minimum-interval rule decides the scroll trigger (reject below 100 ms since
the last admission, admit at or above), while view-change and layout-change
triggers are admitted regardless of the timestamps. -/
theorem min_interval_rejects_only_nonbypass (state : FlashState)
    (hf : state.isFenceActive = false) (ha : state.isFlashActive = false)
    (hp : state.hasPendingFlash = false) :
    (state.now - state.lastViewChange < 100 →
      canScheduleFlash ("scroll") state = false) ∧
    (100 ≤ state.now - state.lastViewChange →
      canScheduleFlash ("scroll") state = true) ∧
    canScheduleFlash ("view-change") state = true ∧
    canScheduleFlash ("layout-change") state = true := by
  obtain ⟨fence, active, pending, last, n⟩ := state
  simp only at hf ha hp
  subst hf; subst ha; subst hp
  refine ⟨?_, ?_, rfl, rfl⟩
  · intro h
    simp [canScheduleFlash, shouldAllowFlash, h]
  · intro h
    simp [canScheduleFlash, shouldAllowFlash, not_lt.mpr h]

/-- C3 witness: rejection at 50 ms, admission at 150 ms. -/
theorem min_interval_rejects_only_nonbypass_witness :
    canScheduleFlash ("scroll") ⟨false, false, false, 0, 50⟩ = false ∧
    canScheduleFlash ("scroll") ⟨false, false, false, 0, 150⟩ = true ∧
    canScheduleFlash ("view-change") ⟨false, false, false, 0, 50⟩ = true :=
  ⟨(min_interval_rejects_only_nonbypass ⟨false, false, false, 0, 50⟩
      rfl rfl rfl).1 (by decide),
   (min_interval_rejects_only_nonbypass ⟨false, false, false, 0, 150⟩
      rfl rfl rfl).2.1 (by decide),
   (min_interval_rejects_only_nonbypass ⟨false, false, false, 0, 50⟩
      rfl rfl rfl).2.2.1⟩

/-- C4: the scroll-debounce policy is piecewise constant with the hard
boundary at exactly 5: every delta below 5 gets 250 ms, every delta at or
above 5 gets 150 ms; in particular 5 maps to 150 and 4.99 maps to 250. -/
theorem scroll_debounce_piecewise (delta : Rat) :
    (delta < 5 → getScrollDebounceTime delta = 250 ∧
      calculateScrollDebounceTime delta = 250) ∧
    (5 ≤ delta → getScrollDebounceTime delta = 150 ∧
      calculateScrollDebounceTime delta = 150) ∧
    getScrollDebounceTime 5 = 150 ∧
    getScrollDebounceTime (4.99 : Rat) = 250 := by
  refine ⟨?_, ?_, ?_, ?_⟩
  · intro h
    constructor <;>
      simp [getScrollDebounceTime, calculateScrollDebounceTime, h]
  · intro h
    constructor <;>
      simp [getScrollDebounceTime, calculateScrollDebounceTime, not_lt.mpr h]
  · norm_num [getScrollDebounceTime, calculateScrollDebounceTime]
  · norm_num [getScrollDebounceTime, calculateScrollDebounceTime]

/-- C4 witness: concrete deltas on both sides of the boundary. -/
theorem scroll_debounce_piecewise_witness :
    getScrollDebounceTime 3 = 250 ∧ getScrollDebounceTime 80 = 150 :=
  ⟨((scroll_debounce_piecewise 3).1 (by norm_num)).1,
   ((scroll_debounce_piecewise 80).2.1 (by norm_num)).1⟩

/- ===== src/utils.ts: hexToRgb ===== -/

/-- RGB triple as returned by hexToRgb; channels are the nonnegative
integers produced by parseInt. -/
structure Rgb where
  r : Nat
  g : Nat
  b : Nat
deriving DecidableEq

/-- Value of one decimal digit character. -/
def digitVal (c : Char) : Nat := c.toNat - ('0').toNat

/-- Worker for digitRuns: walks the characters accumulating the current run
of digits, if any. -/
def digitRunsAux : List Char → Option Nat → List Nat
  | [], none => []
  | [], some n => [n]
  | c :: rest, none =>
    if c.isDigit then digitRunsAux rest (some (digitVal c))
    else digitRunsAux rest none
  | c :: rest, some n =>
    if c.isDigit then digitRunsAux rest (some (n * 10 + digitVal c))
    else n :: digitRunsAux rest none

/-- Embedding of matching the input against the global all-digit-runs
pattern in hexToRgb: the maximal digit runs of the string, each read as a
base-10 integer (parseInt(run, 10)). -/
def digitRuns (l : List Char) : List Nat := digitRunsAux l none

/-- Embedding of the startsWith test against the three-letter rgb marker in
hexToRgb. -/
def startsWithRgb : List Char → Bool
  | c1 :: c2 :: c3 :: _ => c1 == 'r' && c2 == 'g' && c3 == 'b'
  | _ => false

/-- Case-insensitive hex digit class of the anchored hex pattern in
hexToRgb. -/
def isHexDigitChar (c : Char) : Bool :=
  c.isDigit || ('a' ≤ c && c ≤ 'f') || ('A' ≤ c && c ≤ 'F')

/-- Value of one case-insensitive hex digit. -/
def hexDigitVal (c : Char) : Nat :=
  if c.isDigit then c.toNat - ('0').toNat
  else if 'a' ≤ c && c ≤ 'f' then c.toNat - ('a').toNat + 10
  else c.toNat - ('A').toNat + 10

/-- parseInt(group, 16) for one two-character capture group of the hex
pattern. -/
def hexPairVal (c d : Char) : Nat := 16 * hexDigitVal c + hexDigitVal d

/-- Embedding of the anchored hex pattern of hexToRgb after the optional
hash: exactly six case-insensitive hex digits, split into three
two-character capture groups. -/
def matchHex6 : List Char → Option (Nat × Nat × Nat)
  | [c1, c2, c3, c4, c5, c6] =>
    if isHexDigitChar c1 && isHexDigitChar c2 && isHexDigitChar c3 &&
        isHexDigitChar c4 && isHexDigitChar c5 && isHexDigitChar c6 then
      some (hexPairVal c1 c2, hexPairVal c3 c4, hexPairVal c5 c6)
    else
      none
  | _ => none

/-- The optional leading hash of the hex pattern. -/
def stripHash : List Char → List Char
  | '#' :: rest => rest
  | l => l

/-- Fall-through part of hexToRgb: try the anchored 6-digit hex pattern,
else return the fixed fallback triple. -/
def hexFallback (l : List Char) : Rgb :=
  match matchHex6 (stripHash l) with
  | some (r, g, b) => ⟨r, g, b⟩
  | none => ⟨100, 150, 255⟩

/-- Embedding of hexToRgb from src/utils.ts on the character list of the
input string: the rgb branch first (needing at least three digit runs),
then the hex pattern, then the fallback. -/
def hexToRgbList (l : List Char) : Rgb :=
  if startsWithRgb l then
    match digitRuns l with
    | r :: g :: b :: _ => ⟨r, g, b⟩
    | _ => hexFallback l
  else
    hexFallback l

/-- Embedding of hexToRgb from src/utils.ts. -/
def hexToRgb (hex : String) : Rgb := hexToRgbList hex.data

/-- Helper: stripHash keeps a list whose head is not the hash character. -/
lemma stripHash_of_head_ne (c : Char) (rest : List Char) (h : ¬ c = '#') :
    stripHash (c :: rest) = c :: rest := by
  simp only [stripHash]
  split
  · rename_i heq
    injection heq with hHead _
    exact absurd hHead h
  · rfl

/-- Helper: a hex digit is never the letter r, so a bare hex string never
enters the rgb branch. -/
lemma isHexDigitChar_ne_r {c : Char} (h : isHexDigitChar c = true) :
    (c == 'r') = false := by
  cases hEq : c == 'r' with
  | false => rfl
  | true =>
    have hc : c = 'r' := eq_of_beq hEq
    rw [hc] at h
    exact absurd h (by decide)

/-- C7: hexToRgb is total; a 6-digit hex string with or without the leading
hash parses to its three channel values; a string in the rgb branch with at
least three digit runs parses to the first three runs (alpha ignored); and
other inputs, including 3-digit hex, resolve to the fixed fallback triple
100, 150, 255. -/
theorem hexToRgb_total_and_cases :
    (∀ s : String, ∃ t : Rgb, hexToRgb s = t) ∧
    (∀ c1 c2 c3 c4 c5 c6 : Char,
      isHexDigitChar c1 = true → isHexDigitChar c2 = true →
      isHexDigitChar c3 = true → isHexDigitChar c4 = true →
      isHexDigitChar c5 = true → isHexDigitChar c6 = true →
      hexToRgb (String.mk ['#', c1, c2, c3, c4, c5, c6]) =
        ⟨hexPairVal c1 c2, hexPairVal c3 c4, hexPairVal c5 c6⟩ ∧
      hexToRgb (String.mk [c1, c2, c3, c4, c5, c6]) =
        ⟨hexPairVal c1 c2, hexPairVal c3 c4, hexPairVal c5 c6⟩) ∧
    (∀ (s : String) (r g b : Nat) (rest : List Nat),
      startsWithRgb s.data = true → digitRuns s.data = r :: g :: b :: rest →
      hexToRgb s = ⟨r, g, b⟩) ∧
    hexToRgb ("rgba(12, 34, 56, 0.5)") = ⟨12, 34, 56⟩ ∧
    hexToRgb ("#f00") = ⟨100, 150, 255⟩ ∧
    hexToRgb ("") = ⟨100, 150, 255⟩ ∧
    hexToRgb ("hello world") = ⟨100, 150, 255⟩ := by
  refine ⟨fun s => ⟨hexToRgb s, rfl⟩, ?_, ?_, by decide, by decide, by decide,
    by decide⟩
  · intro c1 c2 c3 c4 c5 c6 h1 h2 h3 h4 h5 h6
    constructor
    · simp [hexToRgb, hexToRgbList, startsWithRgb, hexFallback, stripHash,
        matchHex6, h1, h2, h3, h4, h5, h6]
    · have hne : ¬ (c1 = '#') := by
        intro hc
        rw [hc] at h1
        exact absurd h1 (by decide)
      simp [hexToRgb, hexToRgbList, startsWithRgb, hexFallback,
        stripHash_of_head_ne c1 _ hne, matchHex6, h1, h2, h3, h4, h5, h6,
        isHexDigitChar_ne_r h1]
  · intro s r g b rest hrgb hruns
    simp [hexToRgb, hexToRgbList, hrgb, hruns]

/-- C7 witness: the hex branch at a concrete color and the rgb branch at a
concrete rgb string. -/
theorem hexToRgb_total_and_cases_witness :
    hexToRgb (String.mk ['#', 'a', '1', 'b', '2', 'c', '3']) =
      ⟨hexPairVal 'a' '1', hexPairVal 'b' '2', hexPairVal 'c' '3'⟩ ∧
    hexToRgb ("rgb(9, 8, 7)") = ⟨9, 8, 7⟩ :=
  ⟨(hexToRgb_total_and_cases.2.1 'a' '1' 'b' '2' 'c' '3'
      (by decide) (by decide) (by decide) (by decide) (by decide)
      (by decide)).1,
   hexToRgb_total_and_cases.2.2.1 ("rgb(9, 8, 7)") 9 8 7 []
      (by decide) (by decide)⟩

/- ===== src/utils.ts: getRelativeLuminance / getContrastRatio /
   getContrastColor ===== -/

/-- Embedding of getRelativeLuminance from src/utils.ts; JS numbers are
modelled as reals, Math.pow as the real power function. The green weight in
the source reads 0.7150. -/
noncomputable def getRelativeLuminance (r g b : ℝ) : ℝ :=
  let rsRGB := r / 255
  let gsRGB := g / 255
  let bsRGB := b / 255
  let rLinear := if rsRGB ≤ 0.03928 then rsRGB / 12.92
    else ((rsRGB + 0.055) / 1.055) ^ (2.4 : ℝ)
  let gLinear := if gsRGB ≤ 0.03928 then gsRGB / 12.92
    else ((gsRGB + 0.055) / 1.055) ^ (2.4 : ℝ)
  let bLinear := if bsRGB ≤ 0.03928 then bsRGB / 12.92
    else ((bsRGB + 0.055) / 1.055) ^ (2.4 : ℝ)
  0.2126 * rLinear + 0.7150 * gLinear + 0.0722 * bLinear

/-- Embedding of getContrastRatio from src/utils.ts. -/
noncomputable def getContrastRatio (color1 color2 : String) : ℝ :=
  let rgb1 := hexToRgb color1
  let rgb2 := hexToRgb color2
  let L1 := getRelativeLuminance rgb1.r rgb1.g rgb1.b
  let L2 := getRelativeLuminance rgb2.r rgb2.g rgb2.b
  let lighter := max L1 L2
  let darker := min L1 L2
  (lighter + 0.05) / (darker + 0.05)

/-- Embedding of getContrastColor from src/utils.ts (the try/catch around
the two pure contrast computations can never fire in the embedding, so the
initial value 1 of each contrast variable is always overwritten). -/
noncomputable def getContrastColor (hexColor bgColor textColor : String) :
    String :=
  let bgContrast := getContrastRatio hexColor bgColor
  let textContrast := getContrastRatio hexColor textColor
  if textContrast > bgContrast then textColor else bgColor

/-- Helper: the channel linearization at input 0 is 0. -/
lemma luminance_channel_zero :
    (if (0 : ℝ) / 255 ≤ 0.03928 then (0 : ℝ) / 255 / 12.92
      else (((0 : ℝ) / 255 + 0.055) / 1.055) ^ (2.4 : ℝ)) = 0 := by
  rw [if_pos (by norm_num)]
  norm_num

/-- Helper: the channel linearization at input 255 is exactly 1. -/
lemma luminance_channel_full :
    (if (255 : ℝ) / 255 ≤ 0.03928 then (255 : ℝ) / 255 / 12.92
      else (((255 : ℝ) / 255 + 0.055) / 1.055) ^ (2.4 : ℝ)) = 1 := by
  rw [if_neg (by norm_num)]
  have h : ((255 : ℝ) / 255 + 0.055) / 1.055 = 1 := by norm_num
  rw [h, Real.one_rpow]

/-- Helper: luminance of pure black is exactly 0. -/
lemma getRelativeLuminance_black : getRelativeLuminance 0 0 0 = 0 := by
  simp only [getRelativeLuminance]
  rw [luminance_channel_zero]
  norm_num

/-- Helper: luminance of pure green is exactly the green weight 0.7150 of
the source. -/
lemma getRelativeLuminance_green : getRelativeLuminance 0 255 0 = 0.7150 := by
  simp only [getRelativeLuminance]
  rw [luminance_channel_zero, luminance_channel_full]
  norm_num

/-- Helper: luminance of pure white is exactly 0.9998, the sum of the three
weights of the source. -/
lemma getRelativeLuminance_white :
    getRelativeLuminance 255 255 255 = 0.9998 := by
  simp only [getRelativeLuminance]
  rw [luminance_channel_full]
  norm_num

/-- Helper: the luminance of nonnegative channels is nonnegative. -/
lemma getRelativeLuminance_nonneg (r g b : ℝ) (hr : 0 ≤ r) (hg : 0 ≤ g)
    (hb : 0 ≤ b) : 0 ≤ getRelativeLuminance r g b := by
  simp only [getRelativeLuminance]
  have key : ∀ c : ℝ, 0 ≤ c →
      0 ≤ (if c / 255 ≤ 0.03928 then c / 255 / 12.92
        else ((c / 255 + 0.055) / 1.055) ^ (2.4 : ℝ)) := by
    intro c hc
    split
    · positivity
    · refine Real.rpow_nonneg ?_ _
      positivity
  have h1 := key r hr
  have h2 := key g hg
  have h3 := key b hb
  have w1 : (0 : ℝ) ≤ 0.2126 := by norm_num
  have w2 : (0 : ℝ) ≤ 0.7150 := by norm_num
  have w3 : (0 : ℝ) ≤ 0.0722 := by norm_num
  exact add_nonneg (add_nonneg (mul_nonneg w1 h1) (mul_nonneg w2 h2))
    (mul_nonneg w3 h3)

/-- Helper: parsing the black hex literal. -/
lemma hexToRgb_black : hexToRgb ("#000000") = ⟨0, 0, 0⟩ := by decide

/-- Helper: parsing the white hex literal. -/
lemma hexToRgb_white : hexToRgb ("#ffffff") = ⟨255, 255, 255⟩ := by decide

/-- Helper: two colors denoting the same RGB triple have contrast ratio
exactly 1. -/
lemma contrastRatio_self (a b : String) (h : hexToRgb a = hexToRgb b) :
    getContrastRatio a b = 1 := by
  simp only [getContrastRatio, h]
  rw [max_self, min_self]
  have hL : 0 ≤ getRelativeLuminance ((hexToRgb b).r : ℝ) ((hexToRgb b).g : ℝ)
      ((hexToRgb b).b : ℝ) :=
    getRelativeLuminance_nonneg _ _ _ (Nat.cast_nonneg _) (Nat.cast_nonneg _)
      (Nat.cast_nonneg _)
  rw [div_self]
  linarith

/-- Helper: the contrast ratio of black against white is exactly 20.996 in
the embedding. -/
lemma contrastRatio_bw : getContrastRatio ("#000000") ("#ffffff") = 20.996 := by
  simp only [getContrastRatio, hexToRgb_black, hexToRgb_white]
  norm_num [getRelativeLuminance_black, getRelativeLuminance_white]

/-- C5: evaluation of getRelativeLuminance at the primaries: pure black maps
to exactly 0, pure green to exactly 0.7150 — the green weight that the
source uses, differing from the WCAG weight 0.7152 — and pure white to
exactly 0.9998 rather than 1. -/
theorem luminance_green_weight_observed :
    getRelativeLuminance 0 0 0 = 0 ∧
    getRelativeLuminance 0 255 0 = 0.7150 ∧
    getRelativeLuminance 255 255 255 = 0.9998 ∧
    (0.7150 : ℝ) ≠ 0.7152 ∧ (0.9998 : ℝ) ≠ 1 :=
  ⟨getRelativeLuminance_black, getRelativeLuminance_green,
   getRelativeLuminance_white, by norm_num, by norm_num⟩

/-- C6: getContrastRatio is symmetric in its two arguments, equals exactly 1
whenever the two arguments denote the same RGB triple, is computed as
(max L1 L2 + 0.05) / (min L1 L2 + 0.05) over the two relative luminances,
and the black/white contrast is within 0.01 of 21. -/
theorem contrast_ratio_properties :
    (∀ a b : String, getContrastRatio a b = getContrastRatio b a) ∧
    (∀ a b : String, hexToRgb a = hexToRgb b → getContrastRatio a b = 1) ∧
    (∀ a b : String, getContrastRatio a b =
      (max (getRelativeLuminance ((hexToRgb a).r : ℝ) ((hexToRgb a).g : ℝ)
          ((hexToRgb a).b : ℝ))
        (getRelativeLuminance ((hexToRgb b).r : ℝ) ((hexToRgb b).g : ℝ)
          ((hexToRgb b).b : ℝ)) + 0.05) /
      (min (getRelativeLuminance ((hexToRgb a).r : ℝ) ((hexToRgb a).g : ℝ)
          ((hexToRgb a).b : ℝ))
        (getRelativeLuminance ((hexToRgb b).r : ℝ) ((hexToRgb b).g : ℝ)
          ((hexToRgb b).b : ℝ)) + 0.05)) ∧
    |getContrastRatio ("#000000") ("#ffffff") - 21| < 0.01 := by
  refine ⟨?_, contrastRatio_self, ?_, ?_⟩
  · intro a b
    simp only [getContrastRatio]
    rw [max_comm, min_comm]
  · intro a b
    simp only [getContrastRatio]
  · rw [contrastRatio_bw, abs_sub_lt_iff]
    norm_num

/-- C6 witness: two distinct spellings of the default accent color have
contrast ratio exactly 1. -/
theorem contrast_ratio_properties_witness :
    getContrastRatio ("#6496ff") ("6496ff") = 1 :=
  contrast_ratio_properties.2.1 ("#6496ff") ("6496ff") (by decide)

/-- C9: getContrastColor returns textColor exactly when the contrast of the
input color against textColor strictly exceeds its contrast against
bgColor, and returns bgColor otherwise, so bgColor wins exact ties. -/
theorem contrast_color_choice (hexColor bgColor textColor : String) :
    ( getContrastRatio hexColor bgColor < getContrastRatio hexColor textColor →
      getContrastColor hexColor bgColor textColor = textColor) ∧
    ( getContrastRatio hexColor textColor ≤ getContrastRatio hexColor bgColor →
      getContrastColor hexColor bgColor textColor = bgColor) := by
  constructor
  · intro h
    simp only [getContrastColor]
    rw [if_pos h]
  · intro h
    simp only [getContrastColor]
    rw [if_neg (not_lt.mpr h)]

/-- C9 witness: for a black cursor color, white text beats a black
background, and the black text candidate loses to (or ties with) a white
background. -/
theorem contrast_color_choice_witness :
    getContrastColor ("#000000") ("#000000") ("#ffffff") = "#ffffff" ∧
    getContrastColor ("#000000") ("#ffffff") ("#000000") = "#ffffff" := by
  have hbb : getContrastRatio ("#000000") ("#000000") = 1 :=
    contrastRatio_self _ _ rfl
  constructor
  · apply (contrast_color_choice ("#000000") ("#000000") ("#ffffff")).1
    rw [hbb, contrastRatio_bw]
    norm_num
  · apply (contrast_color_choice ("#000000") ("#ffffff") ("#000000")).2
    rw [hbb, contrastRatio_bw]
    norm_num

/- ===== src/main.ts: scroll handler and scheduleCue ===== -/

/-- The plugin fields read and written by the scroll DOM event handler of
main.ts. The armed scroll-debounce timer is modelled by the delay it was
armed with; none means no timer. -/
structure ScrollState where
  lastScrollPosition : Rat
  cueFlashActive : Bool
  scrollCueSuppressedUntil : Int
  scrollDebounceTimer : Option Rat

/-- Embedding of the scroll handler of createDOMEventHandlers in main.ts:
update the last scroll position; while a cue is active or the suppression
window is open, extend the window by 300 ms and cancel any pending debounce
timer; otherwise re-arm the debounce timer with the delta-dependent delay. -/
def handleScroll (flashOnWindowScrolls : Bool) (currentScrollPos : Rat)
    (now : Int) (s : ScrollState) : ScrollState :=
  if !flashOnWindowScrolls then s
  else
    let scrollDelta := |currentScrollPos - s.lastScrollPosition|
    let s1 : ScrollState := { s with lastScrollPosition := currentScrollPos }
    if s1.cueFlashActive || decide (now < s1.scrollCueSuppressedUntil) then
      { s1 with scrollCueSuppressedUntil := now + 300,
                scrollDebounceTimer := none }
    else
      let debounceTime : Rat := if scrollDelta < 5 then 250 else 150
      { s1 with scrollDebounceTimer := some debounceTime }

/-- C8: when a flash is active or the suppression window is open at a scroll
event, the handler sets the suppression deadline to now + 300, cancels any
pending debounce timer and arms no new one; only when neither condition
holds does it arm a fresh debounce timer. -/
theorem scroll_suppression_window (pos : Rat) (now : Int) (s : ScrollState) :
    (s.cueFlashActive = true ∨ now < s.scrollCueSuppressedUntil →
      handleScroll true pos now s =
        { s with lastScrollPosition := pos,
                 scrollCueSuppressedUntil := now + 300,
                 scrollDebounceTimer := none }) ∧
    (s.cueFlashActive = false → s.scrollCueSuppressedUntil ≤ now →
      handleScroll true pos now s =
        { s with lastScrollPosition := pos,
                 scrollDebounceTimer :=
                   some (if |pos - s.lastScrollPosition| < 5 then 250
                     else 150) }) := by
  obtain ⟨lastPos, active, u, timer⟩ := s
  constructor
  · intro h
    simp only at h
    rcases h with h | h
    · subst h
      simp [handleScroll]
    · simp [handleScroll, h]
  · intro ha hu
    simp only at ha hu
    subst ha
    simp [handleScroll, not_lt.mpr hu]

/-- C8 witness: a suppressed event cancels the armed timer and extends the
window; an unsuppressed event arms a fresh timer. -/
theorem scroll_suppression_window_witness :
    handleScroll true 0 10 ⟨0, false, 20, some 150⟩ =
      ⟨0, false, 310, none⟩ ∧
    handleScroll true 7 10 ⟨0, false, 5, none⟩ =
      ⟨7, false, 5, some 150⟩ := by
  constructor
  · have h := (scroll_suppression_window 0 10 ⟨0, false, 20, some 150⟩).1
      (Or.inr (by decide))
    rw [h]
    rfl
  · have h := (scroll_suppression_window 7 10 ⟨0, false, 5, none⟩).2
      rfl (by decide)
    rw [h]
    norm_num

/-- The plugin fields read and written by scheduleCue in main.ts. The armed
admission timer (cueTimeout) is modelled by the delay it was armed with. -/
structure CueState where
  clickFenceActive : Bool
  cueFlashActive : Bool
  pendingCueTrigger : Option String
  lastViewChange : Int
  cueTimeout : Option Int

/-- JS truthiness of the (string | null) pendingCueTrigger field: null and
the empty string are falsy. -/
def strTruthy : Option String → Bool
  | none => false
  | some t => !(t == "")

/-- Embedding of CursorCuesPlugin.scheduleCue from main.ts: reject mouse
clicks, non-view triggers during the click fence, any trigger while a cue is
active or pending, and any trigger within 100 ms of the last admission;
otherwise record the admission time, remember the pending trigger and arm
the 50 ms admission timer. -/
def scheduleCue (trigger : String) (isMouseClick : Bool) (now : Int)
    (s : CueState) : CueState :=
  if isMouseClick then s
  else
    let isViewTrigger := trigger == "view-change" || trigger == "layout-change"
    if !isViewTrigger && s.clickFenceActive then s
    else if s.cueFlashActive || strTruthy s.pendingCueTrigger then s
    else if now - s.lastViewChange < 100 then s
    else
      { s with lastViewChange := now, pendingCueTrigger := some trigger,
               cueTimeout := some 50 }

/-- Helper: scheduleCue for a non-mouse trigger either leaves the state
untouched or performs exactly the admission update. -/
lemma scheduleCue_cases (trigger : String) (now : Int) (s : CueState) :
    scheduleCue trigger false now s = s ∨
    scheduleCue trigger false now s =
      { s with lastViewChange := now, pendingCueTrigger := some trigger,
               cueTimeout := some 50 } := by
  simp only [scheduleCue]
  rw [if_neg Bool.false_ne_true]
  by_cases h1 : (!(trigger == "view-change" || trigger == "layout-change") &&
      s.clickFenceActive) = true
  · rw [if_pos h1]
    exact Or.inl rfl
  · rw [if_neg h1]
    by_cases h2 : (s.cueFlashActive || strTruthy s.pendingCueTrigger) = true
    · rw [if_pos h2]
      exact Or.inl rfl
    · rw [if_neg h2]
      by_cases h3 : now - s.lastViewChange < 100
      · rw [if_pos h3]
        exact Or.inl rfl
      · rw [if_neg h3]
        exact Or.inr rfl

/-- C10: if the trigger is a mouse click or canScheduleFlash rejects the
corresponding FlashState snapshot, scheduleCue returns the state unchanged
(no admission time update, no pending trigger, no armed timer); and the
admission time changes only to now, together with the pending trigger and
the 50 ms admission timer. -/
theorem scheduleCue_rejection_preserves_state (trigger : String)
    (isMouseClick : Bool) (now : Int) (s : CueState) :
    (isMouseClick = true ∨
      canScheduleFlash trigger
        ⟨s.clickFenceActive, s.cueFlashActive, strTruthy s.pendingCueTrigger,
         s.lastViewChange, now⟩ = false →
      scheduleCue trigger isMouseClick now s = s) ∧
    ((scheduleCue trigger isMouseClick now s).lastViewChange ≠
        s.lastViewChange →
      (scheduleCue trigger isMouseClick now s).lastViewChange = now ∧
      (scheduleCue trigger isMouseClick now s).pendingCueTrigger =
        some trigger ∧
      (scheduleCue trigger isMouseClick now s).cueTimeout = some 50) := by
  cases isMouseClick with
  | true =>
    constructor
    · intro _
      rfl
    · intro h
      exact absurd rfl h
  | false =>
    constructor
    · intro h
      rcases h with h | h
      · exact absurd h (by simp)
      · simp only [scheduleCue]
        rw [if_neg Bool.false_ne_true]
        by_cases h1 : (!(trigger == "view-change" ||
            trigger == "layout-change") && s.clickFenceActive) = true
        · rw [if_pos h1]
        · rw [if_neg h1]
          by_cases h2 : (s.cueFlashActive ||
              strTruthy s.pendingCueTrigger) = true
          · rw [if_pos h2]
          · rw [if_neg h2]
            by_cases h3 : now - s.lastViewChange < 100
            · rw [if_pos h3]
            · exfalso
              rw [Bool.not_eq_true] at h1 h2
              have hcan : canScheduleFlash trigger
                  ⟨s.clickFenceActive, s.cueFlashActive,
                   strTruthy s.pendingCueTrigger, s.lastViewChange, now⟩ =
                  true := by
                simp [canScheduleFlash, shouldAllowFlash, h1, h2, h3]
                have h1d := h1
                simp at h1d
                tauto
              rw [hcan] at h
              exact absurd h (by simp)
    · intro hchange
      rcases scheduleCue_cases trigger now s with hc | hc
      · rw [hc] at hchange
        exact absurd rfl hchange
      · rw [hc]
        exact ⟨rfl, rfl, rfl⟩

/-- C10 witness: a mouse click and a fence rejection leave the state
unchanged; an admitted view-change updates the admission time, pending
trigger and timer. -/
theorem scheduleCue_rejection_preserves_state_witness :
    scheduleCue ("scroll") true 0 ⟨false, false, none, -200, none⟩ =
      ⟨false, false, none, -200, none⟩ ∧
    scheduleCue ("scroll") false 0 ⟨true, false, none, -200, none⟩ =
      ⟨true, false, none, -200, none⟩ ∧
    (scheduleCue ("view-change") false 0 ⟨false, false, none, -200, none⟩
        ).lastViewChange = 0 ∧
    (scheduleCue ("view-change") false 0 ⟨false, false, none, -200, none⟩
        ).pendingCueTrigger = some ("view-change") ∧
    (scheduleCue ("view-change") false 0 ⟨false, false, none, -200, none⟩
        ).cueTimeout = some 50 := by
  refine ⟨?_, ?_, ?_⟩
  · exact (scheduleCue_rejection_preserves_state ("scroll") true 0
      ⟨false, false, none, -200, none⟩).1 (Or.inl rfl)
  · exact (scheduleCue_rejection_preserves_state ("scroll") false 0
      ⟨true, false, none, -200, none⟩).1 (Or.inr (by decide))
  · have h := (scheduleCue_rejection_preserves_state ("view-change") false 0
      ⟨false, false, none, -200, none⟩).2 (by decide)
    exact ⟨h.1, h.2.1, h.2.2⟩
